import Mathlib

/-!
Verification of the command-pipeline value types of the
JGRPatches-TramTrain-Development repository (OpenTTD JGR patchpack).

Shallow embedding of `command_type.h` (src/unnamed/part_000),
`command_func.h` (src/src/command_func.h), `script_company.cpp`
(src/unnamed/part_001, second half) and `settings_internal.h`
(src/unnamed/part_001, first half), restricted to the parts the
claims need: the `CommandCost` value type, the `Commands` identifier
space and its flag masks, the `Command` descriptor, `ScriptCompany::SetName`,
and the `CommandAuxiliaryPtr` deep-clone wrapper.

Machine integers are modelled as `Nat` (unsigned) or `Int` (signed money);
bit operations use `&&&`, `|||`, `^^^` on `Nat`.  A C++ `x &= ~m` is
rendered width-independently as `x ^^^ (x &&& m)`, which clears exactly
the bits of `m`.  C++ assertions are modelled by returning `Option`:
`none` is an assertion failure (contract violation).
-/

/-! ### Basic scalar types

`StringID`, `TileIndex`, `Money` and `ExpensesType` are declared in
headers (`strings_type.h`, `tile_type.h`, `economy_type.h`) that are not
part of the provided sources.  Modelled from the spec: a `StringID` is a
nullable error/message code with sentinel `INVALID_STRING_ID`; a
`TileIndex` is a location identifier with sentinel `INVALID_TILE`; `Money`
is a signed monetary amount accumulating via addition; `ExpensesType` is a
category tag with an invalid sentinel. -/

abbrev StringID := Nat

abbrev TileIndex := Nat

abbrev Money := Int

abbrev ExpensesType := Nat

/-- Modelled from the spec: sentinel "no error" string code (`strings_type.h`). -/
def INVALID_STRING_ID : StringID := 0xFFFF

/-- Modelled from the spec: sentinel invalid tile (`tile_type.h`). -/
def INVALID_TILE : TileIndex := 0xFFFFFFFF

/-- Modelled from the spec: sentinel invalid expense category (`economy_type.h`). -/
def INVALID_EXPENSES : ExpensesType := 0xFF

/-! ### CommandCostIntlFlags (src/unnamed/part_000:22) -/

def CCIF_SUCCESS : Nat := 1

def CCIF_INLINE_EXTRA_MSG : Nat := 2

def CCIF_INLINE_TILE : Nat := 4

def CCIF_INLINE_RESULT : Nat := 8

/-- CommandCost::CommandCostAuxiliaryData (src/unnamed/part_000:46).
The heap-allocated overflow block owned by a `CommandCost`. -/
structure CommandCostAuxiliaryData where
  textref_stack : List Nat := List.replicate 16 0
  textref_stack_grffile : Option Nat := none
  textref_stack_size : Nat := 0
  extra_message : StringID := INVALID_STRING_ID
  tile : TileIndex := INVALID_TILE
  result : Nat := 0
deriving DecidableEq, Repr

/-- CommandCost (src/unnamed/part_000:35).  The `inl` union overlays three
32-bit scalars (`uint32 result`, `StringID extra_message`, `TileIndex tile`);
since all members are integers of the same width, the union is modelled as
the raw stored value, which every member read returns unchanged.  Which
member is semantically live is tracked by `flags`, exactly as in the source. -/
structure CommandCost where
  cost : Money
  expense_type : ExpensesType
  flags : Nat
  message : StringID
  inl : Nat
  aux_data : Option CommandCostAuxiliaryData
deriving DecidableEq, Repr

/-- CommandCost() (src/unnamed/part_000:63): no cost and no error. -/
def CommandCost.mkSuccess : CommandCost :=
  { cost := 0, expense_type := INVALID_EXPENSES, flags := CCIF_SUCCESS
    message := INVALID_STRING_ID, inl := 0, aux_data := none }

/-- CommandCost(StringID) (src/unnamed/part_000:68): failed with the given message. -/
def CommandCost.mkFailed (msg : StringID) : CommandCost :=
  { cost := 0, expense_type := INVALID_EXPENSES, flags := 0
    message := msg, inl := 0, aux_data := none }

/-- CommandCost::DualErrorMessage (src/unnamed/part_000:78). -/
def CommandCost.DualErrorMessage (msg extra_msg : StringID) : CommandCost :=
  let cc := CommandCost.mkFailed msg
  { cc with flags := cc.flags ||| CCIF_INLINE_EXTRA_MSG, inl := extra_msg }

/-- CommandCost(ExpensesType) (src/unnamed/part_000:90). -/
def CommandCost.mkExpenses (ex_t : ExpensesType) : CommandCost :=
  { cost := 0, expense_type := ex_t, flags := CCIF_SUCCESS
    message := INVALID_STRING_ID, inl := 0, aux_data := none }

/-- CommandCost(ExpensesType, const Money &) (src/unnamed/part_000:97). -/
def CommandCost.mkExpensesCost (ex_t : ExpensesType) (cst : Money) : CommandCost :=
  { cost := cst, expense_type := ex_t, flags := CCIF_SUCCESS
    message := INVALID_STRING_ID, inl := 0, aux_data := none }

/-- CommandCost::AddCost(const Money &) (src/unnamed/part_000:104):
`this->cost += cost;` with no other effect. -/
def CommandCost.AddCost (c : CommandCost) (cost : Money) : CommandCost :=
  { c with cost := c.cost + cost }

/-- CommandCost::MultiplyCost (src/unnamed/part_000:115). -/
def CommandCost.MultiplyCost (c : CommandCost) (factor : Int) : CommandCost :=
  { c with cost := c.cost * factor }

/-- CommandCost::GetCost (src/unnamed/part_000:124). -/
def CommandCost.GetCost (c : CommandCost) : Money :=
  c.cost

/-- CommandCost::GetExpensesType (src/unnamed/part_000:133). -/
def CommandCost.GetExpensesType (c : CommandCost) : ExpensesType :=
  c.expense_type

/-- CommandCost::Succeeded (src/unnamed/part_000:204):
`return (this->flags & CCIF_SUCCESS);` converted to bool. -/
def CommandCost.Succeeded (c : CommandCost) : Bool :=
  c.flags &&& CCIF_SUCCESS != 0

/-- CommandCost::Failed (src/unnamed/part_000:213):
`return !(this->flags & CCIF_SUCCESS);`. -/
def CommandCost.Failed (c : CommandCost) : Bool :=
  !(c.flags &&& CCIF_SUCCESS != 0)

/-- CommandCost::MakeError (src/unnamed/part_000:142).
`assert(message != INVALID_STRING_ID)` is modelled as `none`;
`flags &= ~(CCIF_SUCCESS | CCIF_INLINE_EXTRA_MSG)` is the xor-and form;
an existing aux block gets its `extra_message` reset. -/
def CommandCost.MakeError (c : CommandCost) (message : StringID) : Option CommandCost :=
  if message = INVALID_STRING_ID then none
  else some { c with
    flags := c.flags ^^^ (c.flags &&& (CCIF_SUCCESS ||| CCIF_INLINE_EXTRA_MSG))
    message := message
    aux_data := c.aux_data.map (fun a => { a with extra_message := INVALID_STRING_ID }) }

/-- CommandCost::GetErrorMessage (src/unnamed/part_000:183). -/
def CommandCost.GetErrorMessage (c : CommandCost) : StringID :=
  if c.Succeeded then INVALID_STRING_ID
  else c.message

/-- CommandCost::GetExtraErrorMessage (src/unnamed/part_000:193). -/
def CommandCost.GetExtraErrorMessage (c : CommandCost) : StringID :=
  if c.Succeeded then INVALID_STRING_ID
  else if c.flags &&& CCIF_INLINE_EXTRA_MSG != 0 then c.inl
  else match c.aux_data with
    | some a => a.extra_message
    | none => INVALID_STRING_ID

/-- CommandCost::IsSuccessWithMessage (src/unnamed/part_000:233). -/
def CommandCost.IsSuccessWithMessage (c : CommandCost) : Bool :=
  c.Succeeded && c.message != INVALID_STRING_ID

/-- CommandCost::MakeSuccessWithMessage (src/unnamed/part_000:238).
`assert(this->message != INVALID_STRING_ID)` modelled as `none`. -/
def CommandCost.MakeSuccessWithMessage (c : CommandCost) : Option CommandCost :=
  if c.message = INVALID_STRING_ID then none
  else some { c with flags := c.flags ||| CCIF_SUCCESS }

/-- CommandCost::UnwrapSuccessWithMessage (src/unnamed/part_000:244).
`assert(this->IsSuccessWithMessage())` modelled as `none`; the copy
`res = *this` is a value copy; `res.flags &= ~CCIF_SUCCESS` clears the
success bit. -/
def CommandCost.UnwrapSuccessWithMessage (c : CommandCost) : Option CommandCost :=
  if c.IsSuccessWithMessage then
    some { c with flags := c.flags ^^^ (c.flags &&& CCIF_SUCCESS) }
  else none

/-- CommandCost::GetTile (src/unnamed/part_000:252). -/
def CommandCost.GetTile (c : CommandCost) : TileIndex :=
  if c.flags &&& CCIF_INLINE_TILE != 0 then c.inl
  else match c.aux_data with
    | some a => a.tile
    | none => INVALID_TILE

/-- CommandCost::GetResultData (src/unnamed/part_000:260). -/
def CommandCost.GetResultData (c : CommandCost) : Nat :=
  if c.flags &&& CCIF_INLINE_RESULT != 0 then c.inl
  else match c.aux_data with
    | some a => a.result
    | none => 0

/-- Modelled from the spec: the body of `CommandCost::AddCost(const CommandCost &)`
(declared at src/unnamed/part_000:109) is in a source file that is not under
src/.  Per the spec (sections 4.1 and 8): the monetary cost of the other result is
added to the running cost; if the other result failed and this one had not
already failed, this one becomes failed and takes the error message of the other
(first error wins, matching call order); the expense category of the
accumulator is not touched. -/
def CommandCost.AddCostResult (c other : CommandCost) : CommandCost :=
  let t := c.AddCost other.cost
  if t.Succeeded && !other.Succeeded then
    { t with flags := t.flags ^^^ (t.flags &&& CCIF_SUCCESS), message := other.message }
  else t
/-! ### Commands (src/unnamed/part_000:279) and flag masks (src/unnamed/part_000:578) -/

set_option maxRecDepth 4096

/-- Commands enum (src/unnamed/part_000:279): the dense command identifier
space, one constructor per enumerator in source order; the numeric value of an
identifier is its constructor index (`Commands.toCtorIdx`), exactly as a C++
unscoped enum without explicit values. -/
inductive Commands
  | CMD_BUILD_RAILROAD_TRACK
  | CMD_REMOVE_RAILROAD_TRACK
  | CMD_BUILD_SINGLE_RAIL
  | CMD_REMOVE_SINGLE_RAIL
  | CMD_LANDSCAPE_CLEAR
  | CMD_BUILD_BRIDGE
  | CMD_BUILD_RAIL_STATION
  | CMD_BUILD_TRAIN_DEPOT
  | CMD_BUILD_SIGNALS
  | CMD_REMOVE_SIGNALS
  | CMD_TERRAFORM_LAND
  | CMD_BUILD_OBJECT
  | CMD_PURCHASE_LAND_AREA
  | CMD_BUILD_OBJECT_AREA
  | CMD_BUILD_HOUSE
  | CMD_BUILD_TUNNEL
  | CMD_REMOVE_FROM_RAIL_STATION
  | CMD_CONVERT_RAIL
  | CMD_CONVERT_RAIL_TRACK
  | CMD_BUILD_RAIL_WAYPOINT
  | CMD_BUILD_ROAD_WAYPOINT
  | CMD_RENAME_WAYPOINT
  | CMD_SET_WAYPOINT_LABEL_HIDDEN
  | CMD_REMOVE_FROM_RAIL_WAYPOINT
  | CMD_BUILD_ROAD_STOP
  | CMD_REMOVE_ROAD_STOP
  | CMD_BUILD_LONG_ROAD
  | CMD_REMOVE_LONG_ROAD
  | CMD_BUILD_ROAD
  | CMD_BUILD_ROAD_DEPOT
  | CMD_CONVERT_ROAD
  | CMD_BUILD_AIRPORT
  | CMD_BUILD_DOCK
  | CMD_BUILD_SHIP_DEPOT
  | CMD_BUILD_BUOY
  | CMD_PLANT_TREE
  | CMD_BUILD_VEHICLE
  | CMD_SELL_VEHICLE
  | CMD_REFIT_VEHICLE
  | CMD_SEND_VEHICLE_TO_DEPOT
  | CMD_SET_VEHICLE_VISIBILITY
  | CMD_MOVE_RAIL_VEHICLE
  | CMD_FORCE_TRAIN_PROCEED
  | CMD_REVERSE_TRAIN_DIRECTION
  | CMD_CLEAR_ORDER_BACKUP
  | CMD_MODIFY_ORDER
  | CMD_SKIP_TO_ORDER
  | CMD_DELETE_ORDER
  | CMD_INSERT_ORDER
  | CMD_DUPLICATE_ORDER
  | CMD_MASS_CHANGE_ORDER
  | CMD_CHANGE_SERVICE_INT
  | CMD_BUILD_INDUSTRY
  | CMD_INDUSTRY_SET_FLAGS
  | CMD_INDUSTRY_SET_EXCLUSIVITY
  | CMD_INDUSTRY_SET_TEXT
  | CMD_SET_COMPANY_MANAGER_FACE
  | CMD_SET_COMPANY_COLOUR
  | CMD_INCREASE_LOAN
  | CMD_DECREASE_LOAN
  | CMD_WANT_ENGINE_PREVIEW
  | CMD_ENGINE_CTRL
  | CMD_SET_VEHICLE_UNIT_NUMBER
  | CMD_RENAME_VEHICLE
  | CMD_RENAME_ENGINE
  | CMD_RENAME_COMPANY
  | CMD_RENAME_PRESIDENT
  | CMD_RENAME_STATION
  | CMD_RENAME_DEPOT
  | CMD_EXCHANGE_STATION_NAMES
  | CMD_SET_STATION_CARGO_ALLOWED_SUPPLY
  | CMD_PLACE_SIGN
  | CMD_RENAME_SIGN
  | CMD_TURN_ROADVEH
  | CMD_PAUSE
  | CMD_BUY_SHARE_IN_COMPANY
  | CMD_SELL_SHARE_IN_COMPANY
  | CMD_BUY_COMPANY
  | CMD_DECLINE_BUY_COMPANY
  | CMD_FOUND_TOWN
  | CMD_RENAME_TOWN
  | CMD_RENAME_TOWN_NON_ADMIN
  | CMD_DO_TOWN_ACTION
  | CMD_TOWN_SETTING_OVERRIDE
  | CMD_TOWN_SETTING_OVERRIDE_NON_ADMIN
  | CMD_TOWN_CARGO_GOAL
  | CMD_TOWN_GROWTH_RATE
  | CMD_TOWN_RATING
  | CMD_TOWN_SET_TEXT
  | CMD_EXPAND_TOWN
  | CMD_DELETE_TOWN
  | CMD_ORDER_REFIT
  | CMD_CLONE_ORDER
  | CMD_CLEAR_AREA
  | CMD_MONEY_CHEAT
  | CMD_MONEY_CHEAT_ADMIN
  | CMD_CHANGE_BANK_BALANCE
  | CMD_CHEAT_SETTING
  | CMD_BUILD_CANAL
  | CMD_CREATE_SUBSIDY
  | CMD_COMPANY_CTRL
  | CMD_CUSTOM_NEWS_ITEM
  | CMD_CREATE_GOAL
  | CMD_REMOVE_GOAL
  | CMD_SET_GOAL_TEXT
  | CMD_SET_GOAL_PROGRESS
  | CMD_SET_GOAL_COMPLETED
  | CMD_GOAL_QUESTION
  | CMD_GOAL_QUESTION_ANSWER
  | CMD_CREATE_STORY_PAGE
  | CMD_CREATE_STORY_PAGE_ELEMENT
  | CMD_UPDATE_STORY_PAGE_ELEMENT
  | CMD_SET_STORY_PAGE_TITLE
  | CMD_SET_STORY_PAGE_DATE
  | CMD_SHOW_STORY_PAGE
  | CMD_REMOVE_STORY_PAGE
  | CMD_REMOVE_STORY_PAGE_ELEMENT
  | CMD_SCROLL_VIEWPORT
  | CMD_STORY_PAGE_BUTTON
  | CMD_LEVEL_LAND
  | CMD_BUILD_LOCK
  | CMD_BUILD_SIGNAL_TRACK
  | CMD_REMOVE_SIGNAL_TRACK
  | CMD_GIVE_MONEY
  | CMD_CHANGE_SETTING
  | CMD_CHANGE_COMPANY_SETTING
  | CMD_SET_AUTOREPLACE
  | CMD_TOGGLE_REUSE_DEPOT_VEHICLES
  | CMD_TOGGLE_KEEP_REMAINING_VEHICLES
  | CMD_TOGGLE_REFIT_AS_TEMPLATE
  | CMD_TOGGLE_TMPL_REPLACE_OLD_ONLY
  | CMD_RENAME_TMPL_REPLACE
  | CMD_VIRTUAL_TRAIN_FROM_TEMPLATE_VEHICLE
  | CMD_VIRTUAL_TRAIN_FROM_TRAIN
  | CMD_DELETE_VIRTUAL_TRAIN
  | CMD_BUILD_VIRTUAL_RAIL_VEHICLE
  | CMD_REPLACE_TEMPLATE_VEHICLE
  | CMD_MOVE_VIRTUAL_RAIL_VEHICLE
  | CMD_SELL_VIRTUAL_VEHICLE
  | CMD_CLONE_TEMPLATE_VEHICLE_FROM_TRAIN
  | CMD_DELETE_TEMPLATE_VEHICLE
  | CMD_ISSUE_TEMPLATE_REPLACEMENT
  | CMD_DELETE_TEMPLATE_REPLACEMENT
  | CMD_CLONE_VEHICLE
  | CMD_CLONE_VEHICLE_FROM_TEMPLATE
  | CMD_START_STOP_VEHICLE
  | CMD_MASS_START_STOP
  | CMD_AUTOREPLACE_VEHICLE
  | CMD_TEMPLATE_REPLACE_VEHICLE
  | CMD_DEPOT_SELL_ALL_VEHICLES
  | CMD_DEPOT_MASS_AUTOREPLACE
  | CMD_CREATE_GROUP
  | CMD_DELETE_GROUP
  | CMD_ALTER_GROUP
  | CMD_CREATE_GROUP_FROM_LIST
  | CMD_ADD_VEHICLE_GROUP
  | CMD_ADD_SHARED_VEHICLE_GROUP
  | CMD_REMOVE_ALL_VEHICLES_GROUP
  | CMD_SET_GROUP_FLAG
  | CMD_SET_GROUP_LIVERY
  | CMD_MOVE_ORDER
  | CMD_REVERSE_ORDER_LIST
  | CMD_CHANGE_TIMETABLE
  | CMD_BULK_CHANGE_TIMETABLE
  | CMD_SET_VEHICLE_ON_TIME
  | CMD_AUTOFILL_TIMETABLE
  | CMD_AUTOMATE_TIMETABLE
  | CMD_TIMETABLE_SEPARATION
  | CMD_SET_TIMETABLE_START
  | CMD_OPEN_CLOSE_AIRPORT
  | CMD_CREATE_LEAGUE_TABLE
  | CMD_CREATE_LEAGUE_TABLE_ELEMENT
  | CMD_UPDATE_LEAGUE_TABLE_ELEMENT_DATA
  | CMD_UPDATE_LEAGUE_TABLE_ELEMENT_SCORE
  | CMD_REMOVE_LEAGUE_TABLE_ELEMENT
  | CMD_PROGRAM_TRACERESTRICT_SIGNAL
  | CMD_CREATE_TRACERESTRICT_SLOT
  | CMD_ALTER_TRACERESTRICT_SLOT
  | CMD_DELETE_TRACERESTRICT_SLOT
  | CMD_ADD_VEHICLE_TRACERESTRICT_SLOT
  | CMD_REMOVE_VEHICLE_TRACERESTRICT_SLOT
  | CMD_CREATE_TRACERESTRICT_COUNTER
  | CMD_ALTER_TRACERESTRICT_COUNTER
  | CMD_DELETE_TRACERESTRICT_COUNTER
  | CMD_INSERT_SIGNAL_INSTRUCTION
  | CMD_MODIFY_SIGNAL_INSTRUCTION
  | CMD_REMOVE_SIGNAL_INSTRUCTION
  | CMD_SIGNAL_PROGRAM_MGMT
  | CMD_SCHEDULED_DISPATCH
  | CMD_SCHEDULED_DISPATCH_ADD
  | CMD_SCHEDULED_DISPATCH_REMOVE
  | CMD_SCHEDULED_DISPATCH_SET_DURATION
  | CMD_SCHEDULED_DISPATCH_SET_START_DATE
  | CMD_SCHEDULED_DISPATCH_SET_DELAY
  | CMD_SCHEDULED_DISPATCH_RESET_LAST_DISPATCH
  | CMD_SCHEDULED_DISPATCH_CLEAR
  | CMD_SCHEDULED_DISPATCH_ADD_NEW_SCHEDULE
  | CMD_SCHEDULED_DISPATCH_REMOVE_SCHEDULE
  | CMD_SCHEDULED_DISPATCH_RENAME_SCHEDULE
  | CMD_SCHEDULED_DISPATCH_DUPLICATE_SCHEDULE
  | CMD_SCHEDULED_DISPATCH_APPEND_VEHICLE_SCHEDULE
  | CMD_SCHEDULED_DISPATCH_ADJUST
  | CMD_ADD_PLAN
  | CMD_ADD_PLAN_LINE
  | CMD_REMOVE_PLAN
  | CMD_REMOVE_PLAN_LINE
  | CMD_CHANGE_PLAN_VISIBILITY
  | CMD_CHANGE_PLAN_COLOUR
  | CMD_RENAME_PLAN
  | CMD_DESYNC_CHECK
  | CMD_END
deriving DecidableEq, Fintype

/-- FlaggedCommands (src/unnamed/part_000:579). -/
def CMD_NETWORK_COMMAND : Nat := 0x0100

/-- FlaggedCommands (src/unnamed/part_000:580). -/
def CMD_NO_SHIFT_ESTIMATE : Nat := 0x0200

/-- FlaggedCommands (src/unnamed/part_000:581): mask for all command flags. -/
def CMD_FLAGS_MASK : Nat := 0xFF00

/-- FlaggedCommands (src/unnamed/part_000:582): mask for the command ID. -/
def CMD_ID_MASK : Nat := 0x00FF

/-! ### Command descriptor (src/unnamed/part_000:592, 663) -/

/-- CommandFlags::CMD_PROCEX (src/unnamed/part_000:604): the command proc
function has extended parameters. -/
def CMD_PROCEX : Nat := 0x800

/-- DoCommandFlag (src/unnamed/part_000:543), as a bitmask word. -/
abbrev DoCommandFlag := Nat

/-- CommandAuxiliaryBase (src/unnamed/part_000:706): polymorphic auxiliary
command data.  Virtual dispatch is not needed for the claims; an object is
modelled by its allocation identity (`addr`, standing for the heap address
that a `unique_ptr` owns) together with its serialisable content.
Modelled from the spec for the content/Clone contract: the concrete
subclasses and their `Clone` overrides are not under src/; per the spec,
auxiliary data "must support deep cloning", i.e. `Clone` returns a freshly
allocated object with identical serialisable content. -/
structure CommandAuxiliaryBase where
  addr : Nat
  content : List Nat
deriving DecidableEq, Repr

/-- CommandAuxiliaryBase::Clone (src/unnamed/part_000:709, contract modelled
from the spec): a fresh allocation (`fresh` is the address the allocator
returns) carrying the same content. -/
def CommandAuxiliaryBase.Clone (o : CommandAuxiliaryBase) (fresh : Nat) : CommandAuxiliaryBase :=
  { addr := fresh, content := o.content }

/-- CommandProc (src/unnamed/part_000:654). -/
abbrev CommandProc := TileIndex → DoCommandFlag → Nat → Nat → Option String → CommandCost

/-- CommandProcEx (src/unnamed/part_000:655). -/
abbrev CommandProcEx := TileIndex → DoCommandFlag → Nat → Nat → Nat → Option String →
  Option CommandAuxiliaryBase → CommandCost

/-- The anonymous union inside `Command` (src/unnamed/part_000:664): exactly
one of the two function-pointer members is stored. -/
inductive CommandHandler
  | proc (p : CommandProc)
  | procex (p : CommandProcEx)

/-- Command (src/unnamed/part_000:663). -/
structure Command where
  handler : CommandHandler
  name : Option String
  flags : Nat
  type : Nat

/-- Command(CommandProc *, ...) (src/unnamed/part_000:672): stores the simple
handler and clears `CMD_PROCEX` (`flags & ~CMD_PROCEX`). -/
def Command.mkFromProc (proc : CommandProc) (name : Option String) (flags : Nat)
    (type : Nat) : Command :=
  { handler := .proc proc, name := name
    flags := flags ^^^ (flags &&& CMD_PROCEX), type := type }

/-- Command(CommandProcEx *, ...) (src/unnamed/part_000:674): stores the
extended handler and sets `CMD_PROCEX` (`flags | CMD_PROCEX`). -/
def Command.mkFromProcEx (procex : CommandProcEx) (name : Option String) (flags : Nat)
    (type : Nat) : Command :=
  { handler := .procex procex, name := name
    flags := flags ||| CMD_PROCEX, type := type }

/-- Command::Execute (src/unnamed/part_000:677): selects the union member by
the `CMD_PROCEX` flag.  Reading the union member that was not stored is
undefined behaviour in C++ and is modelled as `none`. -/
def Command.Execute (c : Command) (tile : TileIndex) (flags : DoCommandFlag)
    (p1 p2 : Nat) (p3 : Nat) (text : Option String)
    (aux_data : Option CommandAuxiliaryBase) : Option CommandCost :=
  if c.flags &&& CMD_PROCEX != 0 then
    match c.handler with
    | .procex p => some (p tile flags p1 p2 p3 text aux_data)
    | .proc _ => none
  else
    match c.handler with
    | .proc p => some (p tile flags p1 p2 text)
    | .procex _ => none

/-! ### CommandAuxiliaryPtr and CommandContainer (src/unnamed/part_000:716, 741) -/

/-- CommandAuxiliaryPtr (src/unnamed/part_000:716): a
`std::unique_ptr<CommandAuxiliaryBase>`, i.e. either null or an owned object. -/
abbrev CommandAuxiliaryPtr := Option CommandAuxiliaryBase

/-- CommandAuxiliaryPtr::Clone (static, src/unnamed/part_000:732):
`other != nullptr ? other->Clone() : nullptr`.  `fresh` is the address a
non-null clone is allocated at. -/
def CommandAuxiliaryPtr.CloneStatic (fresh : Nat) (other : CommandAuxiliaryPtr) :
    CommandAuxiliaryPtr :=
  match other with
  | some o => some (o.Clone fresh)
  | none => none

/-- CommandAuxiliaryPtr copy constructor (src/unnamed/part_000:722):
initialises from `Clone(other)`. -/
def CommandAuxiliaryPtr.copyCtor (fresh : Nat) (other : CommandAuxiliaryPtr) :
    CommandAuxiliaryPtr :=
  CommandAuxiliaryPtr.CloneStatic fresh other

/-- CommandAuxiliaryPtr copy assignment (src/unnamed/part_000:725):
`this->reset(Clone(other))` — the previous owned object (`prev`) is destroyed
and replaced by the clone. -/
def CommandAuxiliaryPtr.copyAssign (fresh : Nat) (_prev other : CommandAuxiliaryPtr) :
    CommandAuxiliaryPtr :=
  CommandAuxiliaryPtr.CloneStatic fresh other

/-- CommandContainer (src/unnamed/part_000:741). -/
structure CommandContainer where
  tile : TileIndex
  p1 : Nat
  p2 : Nat
  cmd : Nat
  p3 : Nat
  callback : Option Nat
  text : String
  aux_data : CommandAuxiliaryPtr

/-- Copying a CommandContainer (implicit member-wise C++ copy): every plain
field is copied by value; the `aux_data` member is copied through the
`CommandAuxiliaryPtr` copy constructor. -/
def CommandContainer.copyCtor (fresh : Nat) (c : CommandContainer) : CommandContainer :=
  { c with aux_data := CommandAuxiliaryPtr.copyCtor fresh c.aux_data }

/-! ### ScriptCompany::SetName (src/unnamed/part_001:412) -/

/-- Modelled from the spec: script error codes set by the `Enforce*` macros
(`script_error.hpp` is not under src/).  Only the codes SetName can set are
modelled; `ERR_PRECONDITION_STRING_TOO_LONG` is the "string too long" error
named by the source. -/
inductive ScriptErrorCode
  | ERR_NONE
  | ERR_PRECONDITION_FAILED
  | ERR_PRECONDITION_STRING_TOO_LONG
  | ERR_COMPANY_MODE_INVALID
deriving DecidableEq, Repr

/-- Modelled from the spec: `MAX_LENGTH_COMPANY_NAME_CHARS` (`company_type.h`
is not under src/), the maximum allowed company name length in characters. -/
def MAX_LENGTH_COMPANY_NAME_CHARS : Nat := 32

/-- Modelled from the spec: `Utf8StringLength` (`string_func.h` is not under
src/) counts the UTF-8 characters of the decoded text; a Lean `String` is a
sequence of characters, so its length is that count. -/
def Utf8StringLength (s : String) : Nat := s.length

/-- Outcome of a `ScriptCompany::SetName` call: the boolean return value, the
script error that the failing `Enforce*` macro set (modelled from the spec),
and whether `ScriptObject::DoCommand` was reached. -/
structure SetNameOutcome where
  ret : Bool
  error : ScriptErrorCode
  doCommandCalled : Bool
deriving DecidableEq, Repr

/-- ScriptCompany::SetName (src/unnamed/part_001:412).  The checks run in
source order: `EnforceCompanyModeValid(false)`,
`EnforcePrecondition(false, name != nullptr)`,
`EnforcePreconditionEncodedText(false, text)`,
`EnforcePreconditionCustomError(false, Utf8StringLength(text) <
MAX_LENGTH_COMPANY_NAME_CHARS, ERR_PRECONDITION_STRING_TOO_LONG)`; each
failing check returns `false` without dispatching; only if all pass is
`DoCommand(0, 0, 0, CMD_RENAME_COMPANY, text)` invoked.  The company-mode
state, text decoding/validity and the command pipeline itself are external
inputs, passed as parameters (`companyModeValid`, `validEncodedText`,
`doCommand`). -/
def ScriptCompany.SetName (companyModeValid : Bool) (name : Option String)
    (validEncodedText : String → Bool) (doCommand : String → Bool) : SetNameOutcome :=
  if !companyModeValid then
    { ret := false, error := .ERR_COMPANY_MODE_INVALID, doCommandCalled := false }
  else match name with
  | none => { ret := false, error := .ERR_PRECONDITION_FAILED, doCommandCalled := false }
  | some text =>
    if !(validEncodedText text) then
      { ret := false, error := .ERR_PRECONDITION_FAILED, doCommandCalled := false }
    else if !(Utf8StringLength text < MAX_LENGTH_COMPANY_NAME_CHARS) then
      { ret := false, error := .ERR_PRECONDITION_STRING_TOO_LONG, doCommandCalled := false }
    else
      { ret := doCommand text, error := .ERR_NONE, doCommandCalled := true }

/-! ### Bitwise helper lemmas -/

/-- Clearing the bits of `m` (the `x &= ~m` idiom rendered as
`x ^^^ (x &&& m)`) zeroes every sub-mask `s` of `m`. -/
theorem and_after_clear_eq_zero (f m s : Nat) (h : m &&& s = s) :
    (f ^^^ (f &&& m)) &&& s = 0 := by
  rw [Nat.and_xor_distrib_right, Nat.and_assoc, h, Nat.xor_self]

/-- Setting the bits of `m` makes masking with `m` return `m`. -/
theorem or_and_self_eq (f m : Nat) : (f ||| m) &&& m = m := by
  apply Nat.eq_of_testBit_eq
  intro i
  simp only [Nat.testBit_and, Nat.testBit_or]
  cases f.testBit i <;> cases m.testBit i <;> rfl

/-- A command word built from an index below 256 and pure flag bits
(low byte clear) masks back to the index. -/
theorem or_flags_and_idmask (idx f : Nat) (h1 : idx < 2 ^ 8)
    (h2 : f &&& 0xFF00 = f) : (idx ||| f) &&& 0xFF = idx := by
  have hconst : (0xFF00 : Nat) &&& 0xFF = 0 := by decide
  have hf : f &&& 0xFF = 0 := by
    conv_lhs => rw [← h2]
    rw [Nat.and_assoc, hconst, Nat.and_zero]
  have hidx : idx &&& 0xFF = idx := by
    have := Nat.and_pow_two_sub_one_of_lt_two_pow h1
    simpa using this
  rw [Nat.and_distrib_right, hf, hidx, Nat.or_zero]

/-! ### Claim theorems -/

/-- C2: for every CommandCost value, exactly one of Succeeded() and Failed()
returns true — never both true, never both false, whatever the state of the value. -/
theorem succeeded_failed_exclusive_total (c : CommandCost) :
    (c.Succeeded = true ∧ c.Failed = false) ∨
    (c.Succeeded = false ∧ c.Failed = true) := by
  unfold CommandCost.Succeeded CommandCost.Failed
  cases h : (c.flags &&& CCIF_SUCCESS != 0) <;> simp [h]

/-- C10: whenever Succeeded() is true, GetErrorMessage() and
GetExtraErrorMessage() both return the INVALID_STRING_ID sentinel, even when a
warning message is actually stored in the value. -/
theorem success_error_accessors_return_sentinel (c : CommandCost)
    (h : c.Succeeded = true) :
    c.GetErrorMessage = INVALID_STRING_ID ∧
    c.GetExtraErrorMessage = INVALID_STRING_ID := by
  unfold CommandCost.GetErrorMessage CommandCost.GetExtraErrorMessage
  simp [h]

/-- A concrete success-with-message value: failed value with warning message 5
turned into a success by MakeSuccessWithMessage. -/
def ccSuccessWithMsg : CommandCost :=
  { cost := 0, expense_type := INVALID_EXPENSES, flags := CCIF_SUCCESS
    message := 5, inl := 0, aux_data := none }

/-- Witness for C10: the concrete success-with-message value stores message 5,
yet both accessors return the sentinel. -/
theorem success_error_accessors_return_sentinel_witness :
    (CommandCost.mkFailed 5).MakeSuccessWithMessage = some ccSuccessWithMsg ∧
    ccSuccessWithMsg.IsSuccessWithMessage = true ∧
    ccSuccessWithMsg.GetErrorMessage = INVALID_STRING_ID ∧
    ccSuccessWithMsg.GetExtraErrorMessage = INVALID_STRING_ID := by
  have h := success_error_accessors_return_sentinel ccSuccessWithMsg (by decide)
  exact ⟨by decide, by decide, h.1, h.2⟩

/-- C1: combining two non-failed results sums their monetary costs and leaves
the expense category of the accumulator untouched; if either operand failed, the
result is failed and carries the error message of whichever failed first in the
call order (the error already held by the accumulator wins over the added one). -/
theorem addCostResult_spec (a b : CommandCost) :
    (a.Succeeded = true → b.Succeeded = true →
       (a.AddCostResult b).GetCost = a.GetCost + b.GetCost ∧
       (a.AddCostResult b).GetExpensesType = a.GetExpensesType ∧
       (a.AddCostResult b).Succeeded = true) ∧
    (a.Failed = true →
       (a.AddCostResult b).Failed = true ∧
       (a.AddCostResult b).GetErrorMessage = a.GetErrorMessage) ∧
    (a.Succeeded = true → b.Failed = true →
       (a.AddCostResult b).Failed = true ∧
       (a.AddCostResult b).GetErrorMessage = b.GetErrorMessage) := by
  have hclear : ∀ f : Nat, (f ^^^ (f &&& CCIF_SUCCESS)) &&& CCIF_SUCCESS = 0 :=
    fun f => and_after_clear_eq_zero f CCIF_SUCCESS CCIF_SUCCESS (by decide)
  refine ⟨fun ha hb => ?_, fun ha => ?_, fun ha hb => ?_⟩
  · unfold CommandCost.AddCostResult CommandCost.AddCost
    simp only [CommandCost.Succeeded] at ha hb ⊢
    simp [CommandCost.GetCost, CommandCost.GetExpensesType, CommandCost.Succeeded,
      ha, hb]
  · have ha' : a.Succeeded = false := by
      unfold CommandCost.Failed at ha
      unfold CommandCost.Succeeded
      simpa using ha
    unfold CommandCost.AddCostResult CommandCost.AddCost
    simp only [CommandCost.Succeeded] at ha' ⊢
    simp [CommandCost.Failed, CommandCost.GetErrorMessage, CommandCost.Succeeded, ha']
  · have hb' : b.Succeeded = false := by
      unfold CommandCost.Failed at hb
      unfold CommandCost.Succeeded
      simpa using hb
    unfold CommandCost.AddCostResult CommandCost.AddCost
    simp only [CommandCost.Succeeded] at ha hb' ⊢
    simp [CommandCost.Failed, CommandCost.GetErrorMessage, CommandCost.Succeeded,
      ha, hb', hclear]

/-- Succeeded accumulator with expense type 3 and cost 10. -/
def ccA : CommandCost := CommandCost.mkExpensesCost 3 10

/-- Succeeded added result with expense type 4 and cost 7. -/
def ccB : CommandCost := CommandCost.mkExpensesCost 4 7

/-- Failed value with error message 21. -/
def ccF1 : CommandCost := CommandCost.mkFailed 21

/-- Failed value with error message 22. -/
def ccF2 : CommandCost := CommandCost.mkFailed 22

/-- Witness for C1: concrete sums and error propagation in both orders. -/
theorem addCostResult_spec_witness :
    ((ccA.AddCostResult ccB).GetCost = 17 ∧
     (ccA.AddCostResult ccB).GetExpensesType = 3) ∧
    ((ccF1.AddCostResult ccB).Failed = true ∧
     (ccF1.AddCostResult ccB).GetErrorMessage = 21) ∧
    ((ccA.AddCostResult ccF2).Failed = true ∧
     (ccA.AddCostResult ccF2).GetErrorMessage = 22) := by
  have h1 := (addCostResult_spec ccA ccB).1 (by decide) (by decide)
  have h2 := (addCostResult_spec ccF1 ccB).2.1 (by decide)
  have h3 := (addCostResult_spec ccA ccF2).2.2 (by decide) (by decide)
  refine ⟨⟨?_, ?_⟩, ⟨h2.1, ?_⟩, ⟨h3.1, ?_⟩⟩
  · rw [h1.1]; decide
  · rw [h1.2.1]; decide
  · rw [h2.2]; decide
  · rw [h3.2]; decide

/-- C5 counterexample: AddCost(5) on a failed CommandCost changes the stored
monetary cost (from 0 to 5), so the call is not a no-op leaving the value
otherwise unchanged. -/
theorem addCost_on_failed_changes_cost :
    (CommandCost.mkFailed 9).Failed = true ∧
    ((CommandCost.mkFailed 9).AddCost 5).GetCost ≠ (CommandCost.mkFailed 9).GetCost := by
  decide

/-- C5 (amended): AddCost(money) on an already-failed CommandCost does not
crash and the value remains failed with its error message intact; the monetary
cost, however, is still incremented by the added amount; every other field is
unchanged. -/
theorem addCost_on_failed_keeps_failure (c : CommandCost) (m : Money)
    (h : c.Failed = true) :
    (c.AddCost m).Failed = true ∧
    (c.AddCost m).GetCost = c.GetCost + m ∧
    (c.AddCost m).GetErrorMessage = c.GetErrorMessage ∧
    (c.AddCost m).GetExpensesType = c.GetExpensesType ∧
    (c.AddCost m).flags = c.flags ∧
    (c.AddCost m).message = c.message ∧
    (c.AddCost m).inl = c.inl ∧
    (c.AddCost m).aux_data = c.aux_data := by
  unfold CommandCost.AddCost
  refine ⟨?_, ?_, ?_, rfl, rfl, rfl, rfl, rfl⟩
  · unfold CommandCost.Failed at h ⊢
    simpa using h
  · simp [CommandCost.GetCost]
  · unfold CommandCost.GetErrorMessage CommandCost.Succeeded
    rfl

/-- Witness for C5 (amended): the concrete failed value keeps its failure and
message while its cost grows by 5. -/
theorem addCost_on_failed_keeps_failure_witness :
    ((CommandCost.mkFailed 9).AddCost 5).Failed = true ∧
    ((CommandCost.mkFailed 9).AddCost 5).GetCost = 5 ∧
    ((CommandCost.mkFailed 9).AddCost 5).GetErrorMessage = 9 := by
  have h := addCost_on_failed_keeps_failure (CommandCost.mkFailed 9) 5 (by decide)
  refine ⟨h.1, ?_, ?_⟩
  · rw [h.2.1]; decide
  · rw [h.2.2.1]; decide

/-- The result of unwrapping `ccSuccessWithMsg`: same value with the success
flag cleared. -/
def ccUnwrapped : CommandCost :=
  { cost := 0, expense_type := INVALID_EXPENSES, flags := 0
    message := 5, inl := 0, aux_data := none }

/-- C3 counterexample: on the concrete success-with-message value
`ccSuccessWithMsg`, UnwrapSuccessWithMessage returns a value whose Succeeded()
is false (the success flag is cleared), refuting the claim that the unwrapped
value is a plain success. -/
theorem unwrap_not_plain_success :
    ccSuccessWithMsg.IsSuccessWithMessage = true ∧
    ccSuccessWithMsg.UnwrapSuccessWithMessage = some ccUnwrapped ∧
    ccUnwrapped.Succeeded = false ∧
    ccUnwrapped.Failed = true := by
  decide

/-- C3 (amended): on a value in the success-with-message substate,
UnwrapSuccessWithMessage clears the success flag: the returned value answers
Failed(), its stored warning message becomes observable through
GetErrorMessage(), and the cost and expense category are preserved; calling it
on a value not in that substate is a contract violation (assertion failure,
modelled as `none`). -/
theorem unwrapSuccessWithMessage_spec (c : CommandCost) :
    (c.IsSuccessWithMessage = true →
       (c.UnwrapSuccessWithMessage.isSome = true ∧
        ∀ r, c.UnwrapSuccessWithMessage = some r →
          r.Failed = true ∧ r.GetErrorMessage = c.message ∧
          r.GetCost = c.GetCost ∧ r.GetExpensesType = c.GetExpensesType)) ∧
    (c.IsSuccessWithMessage = false → c.UnwrapSuccessWithMessage = none) := by
  have hclear : (c.flags ^^^ (c.flags &&& CCIF_SUCCESS)) &&& CCIF_SUCCESS = 0 :=
    and_after_clear_eq_zero c.flags CCIF_SUCCESS CCIF_SUCCESS (by decide)
  constructor
  · intro h
    unfold CommandCost.UnwrapSuccessWithMessage
    rw [h]
    refine ⟨rfl, fun r hr => ?_⟩
    simp only [if_true, Option.some.injEq] at hr
    subst hr
    refine ⟨?_, ?_, rfl, rfl⟩
    · simp [CommandCost.Failed, hclear]
    · simp [CommandCost.GetErrorMessage, CommandCost.Succeeded, hclear]
  · intro h
    unfold CommandCost.UnwrapSuccessWithMessage
    rw [h]
    rfl

/-- Witness for C3 (amended): unwrapping the concrete success-with-message
value yields a Failed() value exposing message 5, and unwrapping a plain
success is an assertion failure. -/
theorem unwrapSuccessWithMessage_spec_witness :
    ccUnwrapped.Failed = true ∧
    ccUnwrapped.GetErrorMessage = 5 ∧
    CommandCost.mkSuccess.UnwrapSuccessWithMessage = none := by
  have h := (unwrapSuccessWithMessage_spec ccSuccessWithMsg).1 (by decide)
  have hr := h.2 ccUnwrapped (by decide)
  exact ⟨hr.1, hr.2.1, (unwrapSuccessWithMessage_spec CommandCost.mkSuccess).2 (by decide)⟩

/-- C4: MakeError with a non-sentinel code forces the failed state (Failed()
holds, GetErrorMessage() returns the code) and clears any stored extra/warning
message payload (GetExtraErrorMessage() returns the sentinel, the auxiliary
extra message held in the auxiliary block included); MakeError with the INVALID_STRING_ID sentinel
is an assertion failure (modelled as `none`), not a runtime-recoverable
condition. -/
theorem makeError_spec (c : CommandCost) (code : StringID) :
    (code ≠ INVALID_STRING_ID →
       (c.MakeError code).isSome = true ∧
       ∀ r, c.MakeError code = some r →
         r.Failed = true ∧ r.GetErrorMessage = code ∧
         r.GetExtraErrorMessage = INVALID_STRING_ID) ∧
    (c.MakeError code = none ↔ code = INVALID_STRING_ID) := by
  have hsucc : (c.flags ^^^ (c.flags &&& (CCIF_SUCCESS ||| CCIF_INLINE_EXTRA_MSG)))
      &&& CCIF_SUCCESS = 0 :=
    and_after_clear_eq_zero c.flags _ CCIF_SUCCESS (by decide)
  have hextra : (c.flags ^^^ (c.flags &&& (CCIF_SUCCESS ||| CCIF_INLINE_EXTRA_MSG)))
      &&& CCIF_INLINE_EXTRA_MSG = 0 :=
    and_after_clear_eq_zero c.flags _ CCIF_INLINE_EXTRA_MSG (by decide)
  constructor
  · intro hcode
    unfold CommandCost.MakeError
    rw [if_neg hcode]
    refine ⟨rfl, fun r hr => ?_⟩
    simp only [Option.some.injEq] at hr
    subst hr
    refine ⟨?_, ?_, ?_⟩
    · simp [CommandCost.Failed, hsucc]
    · simp [CommandCost.GetErrorMessage, CommandCost.Succeeded, hsucc]
    · unfold CommandCost.GetExtraErrorMessage CommandCost.Succeeded
      simp only [hsucc, hextra]
      cases c.aux_data <;> simp
  · unfold CommandCost.MakeError
    constructor
    · intro h
      by_contra hcode
      rw [if_neg hcode] at h
      exact Option.some_ne_none _ h
    · intro h
      rw [if_pos h]

/-- A succeeded value carrying an auxiliary block whose extra message is 7. -/
def ccWithAux : CommandCost :=
  { cost := 3, expense_type := 1, flags := CCIF_SUCCESS
    message := INVALID_STRING_ID, inl := 0
    aux_data := some { textref_stack := List.replicate 16 0
                       textref_stack_grffile := none, textref_stack_size := 0
                       extra_message := 7, tile := INVALID_TILE, result := 0 } }

/-- `ccWithAux` after MakeError 33: failed, message 33, aux extra message
reset to the sentinel. -/
def ccWithAuxErr : CommandCost :=
  { cost := 3, expense_type := 1, flags := 0
    message := 33, inl := 0
    aux_data := some { textref_stack := List.replicate 16 0
                       textref_stack_grffile := none, textref_stack_size := 0
                       extra_message := INVALID_STRING_ID, tile := INVALID_TILE
                       result := 0 } }

/-- Witness for C4: MakeError 33 on a value holding an auxiliary extra message
fails the value, reports code 33, clears the stored extra message; MakeError
with the sentinel asserts. -/
theorem makeError_spec_witness :
    ccWithAux.MakeError 33 = some ccWithAuxErr ∧
    ccWithAuxErr.Failed = true ∧
    ccWithAuxErr.GetErrorMessage = 33 ∧
    ccWithAuxErr.GetExtraErrorMessage = INVALID_STRING_ID ∧
    ccWithAux.MakeError INVALID_STRING_ID = none := by
  have heq : ccWithAux.MakeError 33 = some ccWithAuxErr := by decide
  have h := ((makeError_spec ccWithAux 33).1 (by decide)).2 ccWithAuxErr heq
  exact ⟨heq, h.1, h.2.1, h.2.2, (makeError_spec ccWithAux INVALID_STRING_ID).2.mpr rfl⟩

/-- Every command identifier is below 256: the enum is densely packed from 0
and `CMD_END` is the 211 th enumerator. -/
theorem commands_toCtorIdx_lt (c : Commands) : c.toCtorIdx < 2 ^ 8 := by
  revert c
  decide

/-- C6: every command identifier fits in one byte — `CMD_END` is at most
`CMD_ID_MASK + 1` (the static_assert at src/unnamed/part_000:585) — so for any
combined command word built from a command index and flag bits drawn from
`CMD_FLAGS_MASK` (such as `CMD_NETWORK_COMMAND` and `CMD_NO_SHIFT_ESTIMATE`),
masking with `CMD_ID_MASK` recovers the command index. -/
theorem command_id_fits_in_byte :
    Commands.CMD_END.toCtorIdx ≤ CMD_ID_MASK + 1 ∧
    (∀ (c : Commands) (f : Nat), f &&& CMD_FLAGS_MASK = f →
       (c.toCtorIdx ||| f) &&& CMD_ID_MASK = c.toCtorIdx) ∧
    CMD_NETWORK_COMMAND &&& CMD_FLAGS_MASK = CMD_NETWORK_COMMAND ∧
    CMD_NO_SHIFT_ESTIMATE &&& CMD_FLAGS_MASK = CMD_NO_SHIFT_ESTIMATE := by
  refine ⟨by decide, fun c f hf => ?_, by decide, by decide⟩
  exact or_flags_and_idmask c.toCtorIdx f (commands_toCtorIdx_lt c) hf

/-- Witness for C6: or-ing both transport flags onto the index of
CMD_RENAME_COMPANY and masking with CMD_ID_MASK gives the index back. -/
theorem command_id_fits_in_byte_witness :
    (Commands.CMD_RENAME_COMPANY.toCtorIdx |||
      (CMD_NETWORK_COMMAND ||| CMD_NO_SHIFT_ESTIMATE)) &&& CMD_ID_MASK
      = Commands.CMD_RENAME_COMPANY.toCtorIdx :=
  command_id_fits_in_byte.2.1 Commands.CMD_RENAME_COMPANY
    (CMD_NETWORK_COMMAND ||| CMD_NO_SHIFT_ESTIMATE) (by decide)

/-- C7: the union member Execute reads always matches the member the
constructor stored.  A descriptor built from a simple handler has CMD_PROCEX
cleared and Execute invokes exactly that handler; one built from an extended
handler has CMD_PROCEX set and Execute invokes exactly that handler — the
undefined-behaviour branch (reading the other union member) is never taken. -/
theorem command_union_member_matches (p : CommandProc) (pe : CommandProcEx)
    (name : Option String) (flags ty : Nat) (tile : TileIndex)
    (dcf : DoCommandFlag) (p1 p2 p3 : Nat) (text : Option String)
    (aux_data : Option CommandAuxiliaryBase) :
    ((Command.mkFromProc p name flags ty).flags &&& CMD_PROCEX = 0 ∧
     (Command.mkFromProc p name flags ty).Execute tile dcf p1 p2 p3 text aux_data
       = some (p tile dcf p1 p2 text)) ∧
    ((Command.mkFromProcEx pe name flags ty).flags &&& CMD_PROCEX = CMD_PROCEX ∧
     (Command.mkFromProcEx pe name flags ty).Execute tile dcf p1 p2 p3 text aux_data
       = some (pe tile dcf p1 p2 p3 text aux_data)) := by
  have hcleared : (flags ^^^ (flags &&& CMD_PROCEX)) &&& CMD_PROCEX = 0 :=
    and_after_clear_eq_zero flags CMD_PROCEX CMD_PROCEX (by decide)
  have hset : (flags ||| CMD_PROCEX) &&& CMD_PROCEX = CMD_PROCEX :=
    or_and_self_eq flags CMD_PROCEX
  refine ⟨⟨hcleared, ?_⟩, ⟨hset, ?_⟩⟩
  · unfold Command.Execute Command.mkFromProc
    simp [hcleared]
  · unfold Command.Execute Command.mkFromProcEx
    simp only [hset]
    simp [CMD_PROCEX]

/-- C8: a rename with a name whose UTF-8 length reaches the maximum fails
before dispatch — SetName returns false and DoCommand for CMD_RENAME_COMPANY
is never invoked — and, when the earlier preconditions pass, the error set is
the string-too-long precondition error. -/
theorem setName_too_long_rejected (companyModeValid : Bool) (text : String)
    (validEncodedText : String → Bool) (doCommand : String → Bool)
    (h : MAX_LENGTH_COMPANY_NAME_CHARS ≤ Utf8StringLength text) :
    (ScriptCompany.SetName companyModeValid (some text) validEncodedText doCommand).ret
      = false ∧
    (ScriptCompany.SetName companyModeValid (some text) validEncodedText
      doCommand).doCommandCalled = false ∧
    (companyModeValid = true → validEncodedText text = true →
      (ScriptCompany.SetName companyModeValid (some text) validEncodedText
        doCommand).error = ScriptErrorCode.ERR_PRECONDITION_STRING_TOO_LONG) := by
  have hlen : ¬ (Utf8StringLength text < MAX_LENGTH_COMPANY_NAME_CHARS) :=
    Nat.not_lt.mpr h
  unfold ScriptCompany.SetName
  cases companyModeValid with
  | false => simp
  | true =>
    cases henc : validEncodedText text with
    | false => simp [henc]
    | true => simp [henc, hlen]

/-- A predicate accepting every decoded text (stands for a well-encoded input). -/
def everyTextValid : String → Bool := fun _ => true

/-- A command pipeline stub that would accept the rename if it were reached. -/
def doCommandAccepts : String → Bool := fun _ => true

/-- A 32-character name: exactly the maximum, hence one character too long. -/
def longCompanyName : String := String.mk (List.replicate 32 'a')

/-- Witness for C8: the 32-character name is rejected with the
string-too-long error and the command pipeline is never reached. -/
theorem setName_too_long_rejected_witness :
    (ScriptCompany.SetName true (some longCompanyName) everyTextValid
      doCommandAccepts).ret = false ∧
    (ScriptCompany.SetName true (some longCompanyName) everyTextValid
      doCommandAccepts).doCommandCalled = false ∧
    (ScriptCompany.SetName true (some longCompanyName) everyTextValid
      doCommandAccepts).error = ScriptErrorCode.ERR_PRECONDITION_STRING_TOO_LONG := by
  have h := setName_too_long_rejected true longCompanyName everyTextValid
    doCommandAccepts (by decide)
  exact ⟨h.1, h.2.1, h.2.2 rfl rfl⟩

/-- C9: copying a queue entry deep-clones its auxiliary payload — the
CommandAuxiliaryPtr copy constructor and copy assignment produce an
independent clone (fresh allocation, same content, no shared state) of the
pointed-to CommandAuxiliaryBase, a null payload copies to null, and a
CommandContainer copy routes its `aux_data` member through that clone while
copying every other field by value. -/
theorem aux_ptr_copy_deep_clones (fresh : Nat) (o : CommandAuxiliaryBase)
    (prev : CommandAuxiliaryPtr) (cont : CommandContainer)
    (hfresh : fresh ≠ o.addr) :
    CommandAuxiliaryPtr.copyCtor fresh none = none ∧
    CommandAuxiliaryPtr.copyAssign fresh prev none = none ∧
    (CommandAuxiliaryPtr.copyCtor fresh (some o)).isSome = true ∧
    (∀ c, CommandAuxiliaryPtr.copyCtor fresh (some o) = some c →
       c.addr ≠ o.addr ∧ c.content = o.content) ∧
    (∀ c, CommandAuxiliaryPtr.copyAssign fresh prev (some o) = some c →
       c.addr ≠ o.addr ∧ c.content = o.content) ∧
    (CommandContainer.copyCtor fresh cont).aux_data
      = CommandAuxiliaryPtr.copyCtor fresh cont.aux_data ∧
    (CommandContainer.copyCtor fresh cont).tile = cont.tile ∧
    (CommandContainer.copyCtor fresh cont).p1 = cont.p1 ∧
    (CommandContainer.copyCtor fresh cont).p2 = cont.p2 ∧
    (CommandContainer.copyCtor fresh cont).p3 = cont.p3 ∧
    (CommandContainer.copyCtor fresh cont).cmd = cont.cmd ∧
    (CommandContainer.copyCtor fresh cont).callback = cont.callback ∧
    (CommandContainer.copyCtor fresh cont).text = cont.text := by
  refine ⟨rfl, rfl, rfl, fun c hc => ?_, fun c hc => ?_, rfl, rfl, rfl, rfl, rfl,
    rfl, rfl, rfl⟩ <;>
  · simp only [CommandAuxiliaryPtr.copyCtor, CommandAuxiliaryPtr.copyAssign,
      CommandAuxiliaryPtr.CloneStatic, CommandAuxiliaryBase.Clone,
      Option.some.injEq] at hc
    subst hc
    exact ⟨hfresh, rfl⟩

/-- The concrete auxiliary object at address 1 with content [2, 3]. -/
def auxObjOne : CommandAuxiliaryBase := { addr := 1, content := [2, 3] }

/-- Witness for C9: cloning `auxObjOne` to the fresh address 100 yields an
object at a different address with identical content; a null pointer copies
to null. -/
theorem aux_ptr_copy_deep_clones_witness :
    CommandAuxiliaryPtr.copyCtor 100 none = none ∧
    CommandAuxiliaryPtr.copyCtor 100 (some auxObjOne)
      = some { addr := 100, content := [2, 3] } ∧
    (100 : Nat) ≠ auxObjOne.addr ∧
    ({ addr := 100, content := [2, 3] } : CommandAuxiliaryBase).content
      = auxObjOne.content := by
  have h := aux_ptr_copy_deep_clones 100 auxObjOne none
    { tile := 0, p1 := 0, p2 := 0, cmd := 0, p3 := 0, callback := none
      text := "", aux_data := none } (by decide)
  have heq : CommandAuxiliaryPtr.copyCtor 100 (some auxObjOne)
      = some { addr := 100, content := [2, 3] } := by decide
  have hc := h.2.2.2.1 { addr := 100, content := [2, 3] } heq
  exact ⟨h.1, heq, fun habs => hc.1 (by rw [← habs]), hc.2⟩
